import Mathlib

/-!
Shallow embedding of the Quantum++ exception hierarchy
(`include/classes/exception.h`) and proofs of the specified properties.

Each concrete C++ class derived from `qpp::exception::Exception` is a
constructor of the inductive type `Kind`; the virtual method
`type_description()` becomes a total function on `Kind`.  An exception
object holds exactly the state the C++ base class holds: the string
`where_` supplied at construction, plus its dynamic type (the `Kind`).
`Exception::what()` becomes `Exception.what`, built by the same sequence
of string appends as the C++ code.
-/

namespace qpp

namespace exception

/-- The closed set of exception classes in the header.  Every fixed class
carries no data beyond `where_`; `CustomException` additionally carries
the user message `what_`. -/
inductive Kind where
  | Unknown
  | ZeroSize
  | MatrixNotSquare
  | MatrixNotCvector
  | MatrixNotRvector
  | MatrixNotVector
  | MatrixNotSquareNorCvector
  | MatrixNotSquareNorRvector
  | MatrixNotSquareNorVector
  | MatrixMismatchSubsys
  | DimsInvalid
  | DimsNotEqual
  | DimsMismatchMatrix
  | DimsMismatchCvector
  | DimsMismatchRvector
  | DimsMismatchVector
  | SubsysMismatchDims
  | PermInvalid
  | PermMismatchDims
  | NotQubitMatrix
  | NotQubitCvector
  | NotQubitRvector
  | NotQubitVector
  | NotQubitSubsys
  | NotBipartite
  | NoCodeword
  | OutOfRange
  | TypeMismatch
  | SizeMismatch
  | UndefinedType
  | CustomException (what_ : String)
  deriving DecidableEq

/-- The override of `type_description()` in each concrete class, verbatim
from the header. -/
def Kind.type_description : Kind → String
  | .Unknown => "UNKNOWN EXCEPTION"
  | .ZeroSize => "Object has zero size"
  | .MatrixNotSquare => "Matrix is not square"
  | .MatrixNotCvector => "Matrix is not a column vector"
  | .MatrixNotRvector => "Matrix is not a row vector"
  | .MatrixNotVector => "Matrix is not a vector"
  | .MatrixNotSquareNorCvector => "Matrix is not square nor column vector"
  | .MatrixNotSquareNorRvector => "Matrix is not square nor row vector"
  | .MatrixNotSquareNorVector => "Matrix is not square nor vector"
  | .MatrixMismatchSubsys => "Matrix mismatch subsystems"
  | .DimsInvalid => "Invalid dimension(s)"
  | .DimsNotEqual => "Dimensions not equal"
  | .DimsMismatchMatrix => "Dimension(s) mismatch matrix size"
  | .DimsMismatchCvector => "Dimension(s) mismatch column vector size"
  | .DimsMismatchRvector => "Dimension(s) mismatch row vector size"
  | .DimsMismatchVector => "Dimension(s) mismatch vector size"
  | .SubsysMismatchDims => "Subsystems mismatch dimensions"
  | .PermInvalid => "Invalid permutation"
  | .PermMismatchDims => "Permutation mismatch dimensions"
  | .NotQubitMatrix => "Matrix is not 2 x 2"
  | .NotQubitCvector => "Column vector is not 2 x 1"
  | .NotQubitRvector => "Row vector is not 1 x 2"
  | .NotQubitVector => "Vector is not 2 x 1 nor 1 x 2"
  | .NotQubitSubsys => "Subsystems are not qubits"
  | .NotBipartite => "Not bi-partite"
  | .NoCodeword => "Codeword does not exist"
  | .OutOfRange => "Parameter out of range"
  | .TypeMismatch => "Type mismatch"
  | .SizeMismatch => "Size mismatch"
  | .UndefinedType => "Not defined for this type"
  | .CustomException what_ => "CUSTOM EXCEPTION " ++ what_

/-- An exception object: the state of the C++ base class (`where_`, set by
the constructor `Exception(const std::string& where)`) together with the
object's dynamic type.  Construction is total: any origin string is
accepted and stored verbatim. -/
structure Exception where
  where_ : String
  kind : Kind
  deriving DecidableEq

/-- The virtual call `this->type_description()`: dispatch on the dynamic
type of the object. -/
def Exception.describe (e : Exception) : String :=
  e.kind.type_description

/-- `Exception::what()`: builds `msg_` by appending, in order,
`"IN "`, `where_`, `": "`, `type_description()` and `"!"`. -/
def Exception.what (e : Exception) : String :=
  "IN " ++ e.where_ ++ ": " ++ e.describe ++ "!"

/-- `Unknown`'s inherited constructor. -/
def Unknown (where_ : String) : Exception := ⟨where_, Kind.Unknown⟩

/-- `ZeroSize`'s inherited constructor. -/
def ZeroSize (where_ : String) : Exception := ⟨where_, Kind.ZeroSize⟩

/-- `MatrixNotSquare`'s inherited constructor. -/
def MatrixNotSquare (where_ : String) : Exception := ⟨where_, Kind.MatrixNotSquare⟩

/-- `PermMismatchDims`'s inherited constructor. -/
def PermMismatchDims (where_ : String) : Exception := ⟨where_, Kind.PermMismatchDims⟩

/-- `CustomException`'s constructor: stores `where` in the base class and
`what` in the member `what_`. -/
def CustomException (where_ what_ : String) : Exception :=
  ⟨where_, Kind.CustomException what_⟩

/-- The fixed (non-Custom) classes of the catalog, in header order. -/
def fixedKinds : List Kind :=
  [Kind.Unknown, Kind.ZeroSize, Kind.MatrixNotSquare, Kind.MatrixNotCvector,
   Kind.MatrixNotRvector, Kind.MatrixNotVector, Kind.MatrixNotSquareNorCvector,
   Kind.MatrixNotSquareNorRvector, Kind.MatrixNotSquareNorVector,
   Kind.MatrixMismatchSubsys, Kind.DimsInvalid, Kind.DimsNotEqual,
   Kind.DimsMismatchMatrix, Kind.DimsMismatchCvector, Kind.DimsMismatchRvector,
   Kind.DimsMismatchVector, Kind.SubsysMismatchDims, Kind.PermInvalid,
   Kind.PermMismatchDims, Kind.NotQubitMatrix, Kind.NotQubitCvector,
   Kind.NotQubitRvector, Kind.NotQubitVector, Kind.NotQubitSubsys,
   Kind.NotBipartite, Kind.NoCodeword, Kind.OutOfRange, Kind.TypeMismatch,
   Kind.SizeMismatch, Kind.UndefinedType]

/-- A single call of the `const` method `type_description()` (exposed as
`describe`): it returns the description and leaves the object as it was. -/
def Exception.describeCall (e : Exception) : String × Exception :=
  (e.describe, e)

/-- A single call of the `const` method `what()`: it returns the rendered
message and leaves the object as it was. -/
def Exception.renderCall (e : Exception) : String × Exception :=
  (e.what, e)

/-- `n` successive calls of `describe` on the same object, threading the
object state through the calls; collects the returned strings. -/
def Exception.describeCalls (e : Exception) : Nat → List String × Exception
  | 0 => ([], e)
  | n + 1 =>
    let r := e.describeCall
    let rest := r.2.describeCalls n
    (r.1 :: rest.1, rest.2)

/-- `n` successive calls of `what` on the same object, threading the
object state through the calls; collects the returned strings. -/
def Exception.renderCalls (e : Exception) : Nat → List String × Exception
  | 0 => ([], e)
  | n + 1 =>
    let r := e.renderCall
    let rest := r.2.renderCalls n
    (r.1 :: rest.1, rest.2)

/-- C1: for every error value and hence for every origin string stored at
construction (including the empty string), the rendered message of
`what()` is exactly `"IN " ++ origin ++ ": " ++ describe() ++ "!"` — the
exact concatenation with this punctuation and field order, no trimming. -/
theorem what_is_exact_concatenation (e : Exception) :
    e.what = "IN " ++ e.where_ ++ ": " ++ e.describe ++ "!" :=
  rfl

/-- C2: for every fixed (non-Custom) kind `k`, constructing the variant
with any origin and calling `describe()` returns exactly the fixed
description of `k`; the result does not depend on the origin and is the
same across all instances of `k`. -/
theorem describe_fixed_kind_constant (k : Kind) (_h : k ∈ fixedKinds)
    (o o' : String) :
    (Exception.mk o k).describe = k.type_description ∧
    (Exception.mk o k).describe = (Exception.mk o' k).describe :=
  ⟨rfl, rfl⟩

/-- Witness for C2 at the `ZeroSize` kind with origins `"check"` and `""`. -/
theorem describe_fixed_kind_constant_witness :
    (Exception.mk "check" Kind.ZeroSize).describe =
      Kind.ZeroSize.type_description ∧
    (Exception.mk "check" Kind.ZeroSize).describe =
      (Exception.mk "" Kind.ZeroSize).describe :=
  describe_fixed_kind_constant Kind.ZeroSize (by decide) "check" ""

/-- C3: for every origin and detail string (including the empty string),
`Custom(origin, detail).describe()` equals `"CUSTOM EXCEPTION " ++ detail`;
in particular `Custom("validate", "negative probability").describe()`
equals `"CUSTOM EXCEPTION negative probability"`. -/
theorem custom_describe_prepends_tag (origin detail : String) :
    (CustomException origin detail).describe =
      "CUSTOM EXCEPTION " ++ detail ∧
    (CustomException "validate" "negative probability").describe =
      "CUSTOM EXCEPTION negative probability" :=
  ⟨rfl, rfl⟩

/-- C4: constructing a fixed-kind variant is a total function of the
origin (no failure mode); the origin is stored verbatim in `where_`,
unvalidated and unnormalized, and the rendered message begins with
`"IN " ++ origin ++ ": "`. -/
theorem fixed_kind_construction_total (k : Kind) (_h : k ∈ fixedKinds)
    (origin : String) :
    (Exception.mk origin k).where_ = origin ∧
    ∃ rest, (Exception.mk origin k).what = ("IN " ++ origin ++ ": ") ++ rest :=
  ⟨rfl, k.type_description ++ "!",
    String.append_assoc ("IN " ++ origin ++ ": ") k.type_description "!"⟩

/-- Witness for C4: the `MatrixNotSquare` kind with origin `"foo::bar"`. -/
theorem fixed_kind_construction_total_witness :
    (Exception.mk "foo::bar" Kind.MatrixNotSquare).where_ = "foo::bar" ∧
    ∃ rest, (Exception.mk "foo::bar" Kind.MatrixNotSquare).what =
      ("IN " ++ "foo::bar" ++ ": ") ++ rest :=
  fixed_kind_construction_total Kind.MatrixNotSquare (by decide) "foo::bar"

/-- C5: `MatrixNotSquare("apply")` renders exactly
`"IN apply: Matrix is not square!"`. -/
theorem matrixNotSquare_apply_renders :
    (MatrixNotSquare "apply").what = "IN apply: Matrix is not square!" :=
  rfl

/-- C6: `PermMismatchDims("syspermute")` renders exactly
`"IN syspermute: Permutation mismatch dimensions!"`. -/
theorem permMismatchDims_syspermute_renders :
    (PermMismatchDims "syspermute").what =
      "IN syspermute: Permutation mismatch dimensions!" :=
  rfl

/-- C7: `describe()` and `what()` are pure and side-effect-free: any
number `n` of successive calls on the same value yields the identical
result every time (a list of `n` copies of the single result) and leaves
the value unchanged. -/
theorem describe_render_pure (e : Exception) (n : Nat) :
    e.describeCalls n = (List.replicate n e.describe, e) ∧
    e.renderCalls n = (List.replicate n e.what, e) := by
  induction n with
  | zero => exact ⟨rfl, rfl⟩
  | succ n ih =>
    refine ⟨?_, ?_⟩
    · show (e.describe :: (e.describeCalls n).1, (e.describeCalls n).2) = _
      rw [ih.1, List.replicate_succ]
    · show (e.what :: (e.renderCalls n).1, (e.renderCalls n).2) = _
      rw [ih.2, List.replicate_succ]

/-- C8: the rendered message is a pure function of the construction-time
inputs: two error values with the same stored origin and the same kind
(which carries the detail for the Custom variant) render identical
strings; the structure holds no other state. -/
theorem what_depends_only_on_inputs (e₁ e₂ : Exception)
    (how : e₁.where_ = e₂.where_) (hk : e₁.kind = e₂.kind) :
    e₁.what = e₂.what := by
  cases e₁
  cases e₂
  cases how
  cases hk
  rfl

/-- Witness for C8: two separately constructed values with equal inputs. -/
theorem what_depends_only_on_inputs_witness :
    (Exception.mk "a" (Kind.CustomException "d")).what =
      (CustomException "a" "d").what :=
  what_depends_only_on_inputs (Exception.mk "a" (Kind.CustomException "d"))
    (CustomException "a" "d") rfl rfl

/-- C9: every fixed kind of the catalog has a non-empty description, and
descriptions are 1:1 with kinds: no two distinct fixed kinds share a
description string. -/
theorem descriptions_nonempty_and_injective :
    (fixedKinds.map Kind.type_description).Nodup ∧
    ∀ k ∈ fixedKinds, Kind.type_description k ≠ "" := by
  refine ⟨by decide, by decide⟩

/-- Witness for C9 at the `Unknown` kind. -/
theorem descriptions_nonempty_and_injective_witness :
    Kind.type_description Kind.Unknown ≠ "" :=
  descriptions_nonempty_and_injective.2 Kind.Unknown (by decide)

/-- C10: the `Unknown` catch-all variant's `describe()` returns exactly
`"UNKNOWN EXCEPTION"` for every origin string, so `Unknown(origin)`
renders `"IN " ++ origin ++ ": UNKNOWN EXCEPTION!"`. -/
theorem unknown_describe_and_render (o : String) :
    (Unknown o).describe = "UNKNOWN EXCEPTION" ∧
    (Unknown o).what = "IN " ++ o ++ ": UNKNOWN EXCEPTION!" := by
  refine ⟨rfl, ?_⟩
  show (("IN " ++ o ++ ": ") ++ "UNKNOWN EXCEPTION") ++ "!" = _
  rw [String.append_assoc ("IN " ++ o ++ ": ") "UNKNOWN EXCEPTION" "!",
    String.append_assoc ("IN " ++ o) ": " ("UNKNOWN EXCEPTION" ++ "!")]
  rfl

end exception

end qpp
